import Mathlib

/-!
A shallow embedding of the `egui_backend_selector` crate
(`src/implementation.rs`), covering the backend-selection state machine
(`STATE`, `overwrite_backend`, `is_launched`, `get_backend`), the launcher
(`run_app`), the Linux capability probe (`determine_backend`), the
configuration merge (`BackendConfiguration`), and the persisted key-value
store constructor (`KVStroage::new`).

The Rust code is sequential from the point of view of every property below
(the spec's claims speak of sequential executions); the atomic
`AtomicUsize` state is therefore modelled as an explicit `Nat` threaded
through the operations, and every `compare_exchange(just_read, v)` executed
with no interleaving succeeds exactly when the current value equals the
value just read.

The platform probe `determine_backend` is compiled per target OS; the
launcher and `get_backend` are therefore parametrised by the probe's result
(`Option Backend`, `none` meaning "indeterminate"), while the Linux variant
of the probe is embedded concretely (`determine_backend_linux`).
-/

namespace EguiBackendSelector

/-- `const NUM_BACKENDS: usize = 2;` (implementation.rs line 15). -/
def NUM_BACKENDS : Nat := 2

/-- `enum Backend { SoftwareBackend, Eframe }` — the two rendering backends;
`Eframe` is the hardware-accelerated one. -/
inductive Backend where
  | SoftwareBackend
  | Eframe
deriving DecidableEq, Repr

/-- The five documented values of the `STATE` atomic:
0 = not decided, 1 = SoftwareBackend not launched, 2 = Eframe not launched,
3 = SoftwareBackend launched, 4 = Eframe launched.  The state itself is a
plain `Nat`, as in the source (`AtomicUsize`). -/
def decidedValue : Backend → Nat
  | .SoftwareBackend => 1
  | .Eframe => 2

/-- The launched (terminal) value for a backend: 3 for the software backend,
4 for eframe (the values `run_app` stores before entering a run-loop). -/
def launchedValue : Backend → Nat
  | .SoftwareBackend => 3
  | .Eframe => 4

/-- `pub fn is_launched() -> bool { STATE.load(Relaxed) > NUM_BACKENDS }`. -/
def is_launched (s : Nat) : Bool := s > NUM_BACKENDS

/-- `pub fn overwrite_backend(backend: Backend)`, sequentially: load the
state; if it exceeds `NUM_BACKENDS`, return without change; otherwise
compare-exchange from the just-loaded value to 1 (SoftwareBackend) or
2 (Eframe).  With no interleaving the exchange compares against the value
just loaded, so it succeeds. -/
def overwrite_backend (backend : Backend) (s : Nat) : Nat :=
  if s > NUM_BACKENDS then s
  else
    match backend with
    | .SoftwareBackend => 1
    | .Eframe => 2

/-- Result of one sequential call to `get_backend`: the returned
`Option<Backend>`, the state after the call, and whether
`determine_backend` (the probe) was invoked during the call. -/
structure GetResult where
  backend : Option Backend
  state : Nat
  probed : Bool
deriving DecidableEq, Repr

/-- `pub fn get_backend() -> Option<Backend>`, sequentially.  States 1–4
return the cached backend without touching the probe; any other state
invokes `determine_backend()` (modelled by the `probe` argument) and, on a
concrete answer, compare-exchanges the state from 0 to the corresponding
decided value (succeeding exactly when the current state is 0). -/
def get_backend (s : Nat) (probe : Option Backend) : GetResult :=
  match s with
  | 1 => ⟨some .SoftwareBackend, s, false⟩
  | 2 => ⟨some .Eframe, s, false⟩
  | 3 => ⟨some .SoftwareBackend, s, false⟩
  | 4 => ⟨some .Eframe, s, false⟩
  | _ =>
    match probe with
    | none => ⟨none, s, true⟩
    | some .SoftwareBackend =>
        ⟨some .SoftwareBackend, if s = 0 then 1 else s, true⟩
    | some .Eframe =>
        ⟨some .Eframe, if s = 0 then 2 else s, true⟩

/-- `egui::ViewportBuilder` — the shared viewport geometry.  Its contents
are opaque to this crate (it is copied wholesale into the chosen options
block), so it is modelled as a single abstract payload. -/
structure ViewportBuilder where
  data : Nat
deriving DecidableEq, Repr

/-- `eframe::NativeOptions`: the `viewport` field this crate overwrites,
plus an abstract payload standing for every other field (which this crate
never touches). -/
structure NativeOptions where
  viewport : ViewportBuilder
  rest : Nat
deriving DecidableEq, Repr

/-- `NativeOptions::default()` — an external constant of the eframe crate. -/
def NativeOptions.defaultOptions : NativeOptions := ⟨⟨0⟩, 0⟩

/-- `egui_software_backend::SoftwareBackendAppConfiguration`: the
`viewport_builder` field this crate overwrites, plus an abstract payload
for every other field. -/
structure SoftwareBackendAppConfiguration where
  viewport_builder : ViewportBuilder
  rest : Nat
deriving DecidableEq, Repr

/-- `SoftwareBackendAppConfiguration::default()` — an external constant of
the software-backend crate. -/
def SoftwareBackendAppConfiguration.defaultOptions : SoftwareBackendAppConfiguration :=
  ⟨⟨0⟩, 0⟩

/-- `pub struct BackendConfiguration` (implementation.rs lines 244–249):
shared viewport geometry plus the two optional backend-specific blocks. -/
structure BackendConfiguration where
  viewport : ViewportBuilder
  eframe_options : Option NativeOptions
  software_backend_options : Option SoftwareBackendAppConfiguration
deriving DecidableEq, Repr

/-- The error value `run_app` returns (`Box<dyn Error>` in the source):
the two precondition errors created from string literals, or a failure
propagated verbatim from the chosen backend's run-loop. -/
inductive RunError where
  | wrongThread
  | alreadyLaunched
  | backendFailure (msg : String)
deriving DecidableEq, Repr

/-- The display text of a `RunError`, as the source constructs it
(`"Current thread is not the main thread".into()`,
`"Application already launched".into()`, backend errors verbatim). -/
def RunError.message : RunError → String
  | .wrongThread => "Current thread is not the main thread"
  | .alreadyLaunched => "Application already launched"
  | .backendFailure m => m

/-- Observable outcome of one sequential call to `run_app`: the returned
`Result`, the final `STATE` value, whether the probe was invoked, which
backend run-loop (if any) was entered, the options block handed to that
run-loop, and whether the factory that constructs the persisted
`KVStroage` was handed to a run-loop (it is only ever constructed inside
the software path's factory closure). -/
structure RunOutcome where
  result : Except RunError Unit
  finalState : Nat
  probeInvoked : Bool
  dispatched : Option Backend
  swCfgUsed : Option SoftwareBackendAppConfiguration
  hwCfgUsed : Option NativeOptions
  storeConstructed : Bool
deriving Repr

/-- `pub fn run_app(app_name, backend_configuration, app_factory)`
(implementation.rs lines 359–411), sequentially.

Inputs beyond the Rust arguments model the call's environment: `s` is the
`STATE` value at entry, `mt` is `is_main_thread::is_main_thread()`,
`probe` is what `determine_backend()` would return, and `swErr` / `hwErr`
are the failures (if any) the software / eframe run-loops would report.
The application factory's produced app never influences any observable of
the claims, so it is not carried.

Faithful to the source: the wrong-thread check, then the `is_launched`
check, then `get_backend()`; `None` and `Some(SoftwareBackend)` both take
the software path, which stores `3` then merges
`software_backend_options.unwrap_or_default` with
`viewport_builder = config.viewport`; `Some(Eframe)` stores `4` then
merges `eframe_options.unwrap_or_default` with
`viewport = config.viewport`; backend errors are returned verbatim.
(`get_backend s probe` is a pure function here, so mentioning it twice in a
branch still models the source's single `get_backend()` call: once for the
returned backend, once for whether that same call ran the probe.) -/
def run_app (_appName : String) (s : Nat) (mt : Option Bool)
    (probe : Option Backend) (config : BackendConfiguration)
    (swErr hwErr : Option String) : RunOutcome :=
  if mt = some false then
    { result := .error .wrongThread, finalState := s, probeInvoked := false,
      dispatched := none, swCfgUsed := none, hwCfgUsed := none,
      storeConstructed := false }
  else if is_launched s then
    { result := .error .alreadyLaunched, finalState := s, probeInvoked := false,
      dispatched := none, swCfgUsed := none, hwCfgUsed := none,
      storeConstructed := false }
  else
    match (get_backend s probe).backend with
    | none | some .SoftwareBackend =>
        { result := match swErr with
            | some e => .error (.backendFailure e)
            | none => .ok ()
          finalState := 3, probeInvoked := (get_backend s probe).probed,
          dispatched := some .SoftwareBackend,
          swCfgUsed := some
            { config.software_backend_options.getD
                SoftwareBackendAppConfiguration.defaultOptions with
              viewport_builder := config.viewport },
          hwCfgUsed := none,
          storeConstructed := true }
    | some .Eframe =>
        { result := match hwErr with
            | some e => .error (.backendFailure e)
            | none => .ok ()
          finalState := 4, probeInvoked := (get_backend s probe).probed,
          dispatched := some .Eframe,
          swCfgUsed := none,
          hwCfgUsed := some
            { config.eframe_options.getD NativeOptions.defaultOptions with
              viewport := config.viewport },
          storeConstructed := false }

/-- `pat` is an initial segment of `s` — models `str::starts_with`. -/
def charsStart (pat s : List Char) : Bool :=
  match pat, s with
  | [], _ => true
  | _ :: _, [] => false
  | p :: ps, c :: cs => p == c && charsStart ps cs

/-- `pat` occurs contiguously somewhere in `s` — models `str::contains`. -/
def charsContain (pat s : List Char) : Bool :=
  match s with
  | [] => charsStart pat []
  | _ :: cs => charsStart pat s || charsContain pat cs

/-- `fn determine_backend()` for `target_os = "linux"`
(implementation.rs lines 419–438).  `display` is
`std::env::var("DISPLAY")`: `none` when the variable is absent (assumed
wayland, eframe works), otherwise its value; a value that neither starts
with `":"` nor contains `"/unix:"` is a remote X11 session, everything
else gets eframe. -/
def determine_backend_linux (display : Option (List Char)) : Option Backend :=
  match display with
  | none => some .Eframe
  | some d =>
    if ¬ charsStart [Char.ofNat 58] d ∧ ¬ charsContain "/unix:".toList d then
      some .SoftwareBackend
    else
      some .Eframe

/-- The state of the persisted `app.ron` file at the moment
`KVStroage::new` runs: absent, present but unreadable (`File::open`
fails), present but not valid data (`ron::de::from_reader` fails), or
present and parsing to a mapping. -/
inductive FileState where
  | missing
  | openFail
  | malformed
  | parsed (kv : List (String × String))
deriving DecidableEq, Repr

/-- `struct KVStroage` (implementation.rs lines 286–290) minus the on-disk
path, which only the flush uses. -/
structure KVStroage where
  kv : List (String × String)
  dirty : Bool
deriving DecidableEq, Repr

/-- `KVStroage::new(app_name)` (implementation.rs lines 314–336).
`dirAvailable` models `eframe::storage_dir(..)` returning `Some`; `file`
is the state of `app.ron`.  Returns the constructed store (or `none`, the
function's `?` early exits) paired with whether a warning was logged
(`error!` in an `inspect_err`).  A missing file yields an empty mapping;
an unreadable or malformed file logs and makes the whole constructor
return `None`. -/
def kvstroage_new (dirAvailable : Bool) (file : FileState) :
    Option KVStroage × Bool :=
  if !dirAvailable then (none, false)
  else
    match file with
    | .missing => (some ⟨[], false⟩, false)
    | .openFail => (none, true)
    | .malformed => (none, true)
    | .parsed kv => (some ⟨kv, false⟩, false)

/-- The `SelectionState` values reachable in a sequential process: 0 at
process start, then anything the three state-touching operations produce. -/
inductive Reachable : Nat → Prop where
  | init : Reachable 0
  | ow {s : Nat} (b : Backend) : Reachable s → Reachable (overwrite_backend b s)
  | gb {s : Nat} (p : Option Backend) : Reachable s → Reachable ((get_backend s p).state)
  | launch {s : Nat} (n : String) (mt : Option Bool) (p : Option Backend)
      (c : BackendConfiguration) (se he : Option String) :
      Reachable s → Reachable ((run_app n s mt p c se he).finalState)

/-- `overwrite_backend` keeps the state within the five documented values. -/
lemma overwrite_backend_le_four {s : Nat} (b : Backend) (h : s ≤ 4) :
    overwrite_backend b s ≤ 4 := by
  unfold overwrite_backend
  split
  · exact h
  · cases b <;> decide

/-- `get_backend` keeps the state within the five documented values. -/
lemma get_backend_state_le_four {s : Nat} (p : Option Backend) (h : s ≤ 4) :
    (get_backend s p).state ≤ 4 := by
  interval_cases s <;> cases p <;>
    first
      | decide
      | (rename_i b; cases b <;> decide)

/-- `run_app` leaves the state alone or stores a launched value (3 or 4). -/
lemma run_app_finalState_cases (n : String) (s : Nat) (mt : Option Bool)
    (p : Option Backend) (c : BackendConfiguration) (se he : Option String) :
    (run_app n s mt p c se he).finalState = s ∨
    (run_app n s mt p c se he).finalState = 3 ∨
    (run_app n s mt p c se he).finalState = 4 := by
  unfold run_app
  by_cases h1 : mt = some false
  · simp [h1]
  · by_cases h2 : is_launched s = true
    · simp [h1, h2]
    · rcases h3 : (get_backend s p).backend with _ | b
      · simp [h1, h2, h3]
      · cases b <;> simp [h1, h2, h3]

/-- Every reachable state is one of the five documented values. -/
lemma reachable_le_four {s : Nat} (h : Reachable s) : s ≤ 4 := by
  induction h with
  | init => decide
  | ow b _ ih => exact overwrite_backend_le_four b ih
  | gb p _ ih => exact get_backend_state_le_four p ih
  | launch n mt p c se he _ ih =>
    rename_i s hr
    rcases run_app_finalState_cases n s mt p c se he with h | h | h <;> omega

/-- Evaluation of `run_app` when both preconditions pass and `get_backend`
resolves to the software backend (or to nothing): the software run-loop is
entered in state 3 with the merged software options. -/
lemma run_app_software (appName : String) (s : Nat) (mt : Option Bool)
    (probe : Option Backend) (config : BackendConfiguration)
    (swErr hwErr : Option String)
    (h1 : ¬ mt = some false) (h2 : ¬ is_launched s = true)
    (h3 : (get_backend s probe).backend = none ∨
          (get_backend s probe).backend = some .SoftwareBackend) :
    run_app appName s mt probe config swErr hwErr =
      { result := match swErr with
          | some e => .error (.backendFailure e)
          | none => .ok ()
        finalState := 3, probeInvoked := (get_backend s probe).probed,
        dispatched := some .SoftwareBackend,
        swCfgUsed := some
          { config.software_backend_options.getD
              SoftwareBackendAppConfiguration.defaultOptions with
            viewport_builder := config.viewport },
        hwCfgUsed := none,
        storeConstructed := true } := by
  unfold run_app
  rw [if_neg h1, if_neg h2]
  rcases h3 with h3 | h3 <;> rw [h3]

/-- Evaluation of `run_app` when both preconditions pass and `get_backend`
resolves to eframe: the eframe run-loop is entered in state 4 with the
merged native options. -/
lemma run_app_eframe (appName : String) (s : Nat) (mt : Option Bool)
    (probe : Option Backend) (config : BackendConfiguration)
    (swErr hwErr : Option String)
    (h1 : ¬ mt = some false) (h2 : ¬ is_launched s = true)
    (h3 : (get_backend s probe).backend = some .Eframe) :
    run_app appName s mt probe config swErr hwErr =
      { result := match hwErr with
          | some e => .error (.backendFailure e)
          | none => .ok ()
        finalState := 4, probeInvoked := (get_backend s probe).probed,
        dispatched := some .Eframe,
        swCfgUsed := none,
        hwCfgUsed := some
          { config.eframe_options.getD NativeOptions.defaultOptions with
            viewport := config.viewport },
        storeConstructed := false } := by
  unfold run_app
  rw [if_neg h1, if_neg h2, h3]

/-- Evaluation of `get_backend` in state 1: cached software backend. -/
lemma get_backend_one (p : Option Backend) :
    get_backend 1 p = ⟨some .SoftwareBackend, 1, false⟩ := rfl

/-- Evaluation of `get_backend` in state 2: cached eframe backend. -/
lemma get_backend_two (p : Option Backend) :
    get_backend 2 p = ⟨some .Eframe, 2, false⟩ := rfl

/-- Evaluation of `get_backend` in state 3: launched software backend. -/
lemma get_backend_three (p : Option Backend) :
    get_backend 3 p = ⟨some .SoftwareBackend, 3, false⟩ := rfl

/-- Evaluation of `get_backend` in state 4: launched eframe backend. -/
lemma get_backend_four (p : Option Backend) :
    get_backend 4 p = ⟨some .Eframe, 4, false⟩ := rfl

/-- C5: on every reachable `SelectionState` value, `is_launched` is false
exactly on {0 = undecided, 1 = decided-software, 2 = decided-eframe} and
true exactly on {3 = launched-software, 4 = launched-eframe}, i.e. exactly
when the value exceeds `NUM_BACKENDS = 2`. -/
theorem c5_is_launched_characterization {s : Nat} (h : Reachable s) :
    (is_launched s = false ↔ s = 0 ∨ s = 1 ∨ s = 2) ∧
    (is_launched s = true ↔ s = 3 ∨ s = 4) ∧
    (is_launched s = true ↔ NUM_BACKENDS < s) := by
  have h4 : s ≤ 4 := reachable_le_four h
  interval_cases s <;> exact ⟨by decide, by decide, by decide⟩

/-- Witness for C5 at the reachable state 3 (reached by launching from the
initial state with an indeterminate probe). -/
theorem c5_is_launched_characterization_witness :
    (is_launched 3 = false ↔ 3 = 0 ∨ 3 = 1 ∨ 3 = 2) ∧
    (is_launched 3 = true ↔ 3 = 3 ∨ 3 = 4) ∧
    (is_launched 3 = true ↔ NUM_BACKENDS < 3) :=
  c5_is_launched_characterization
    (Reachable.launch "app" none none ⟨⟨0⟩, none, none⟩ none none Reachable.init)

/-- C4: in a launched (terminal) state, `overwrite_backend` leaves the state
unchanged, so the backend `get_backend` resolves is unchanged by the
overwrite; in a not-yet-launched state, `overwrite_backend b` sets the
state to the decided-not-launched value for `b`, after which `get_backend`
resolves to `b`. -/
theorem c4_overwrite_backend_frame (b : Backend) (s : Nat) (p : Option Backend) :
    (is_launched s = true →
      overwrite_backend b s = s ∧
      get_backend (overwrite_backend b s) p = get_backend s p) ∧
    (is_launched s = false →
      overwrite_backend b s = decidedValue b ∧
      (get_backend (overwrite_backend b s) p).backend = some b) := by
  constructor
  · intro h
    have hs : NUM_BACKENDS < s := by simpa [is_launched] using h
    unfold overwrite_backend
    rw [if_pos hs]
    exact ⟨rfl, rfl⟩
  · intro h
    have hs : ¬ NUM_BACKENDS < s := by simpa [is_launched] using h
    unfold overwrite_backend
    rw [if_neg hs]
    cases b <;> exact ⟨rfl, rfl⟩

/-- Witness for C4: overwriting to eframe is a no-op in launched state 3
and decides eframe in the undecided state 0. -/
theorem c4_overwrite_backend_frame_witness :
    (overwrite_backend .Eframe 3 = 3 ∧
      get_backend (overwrite_backend .Eframe 3) none = get_backend 3 none) ∧
    (overwrite_backend .Eframe 0 = decidedValue .Eframe ∧
      (get_backend (overwrite_backend .Eframe 0) none).backend = some .Eframe) :=
  ⟨(c4_overwrite_backend_frame .Eframe 3 none).1 (by decide),
   (c4_overwrite_backend_frame .Eframe 0 none).2 (by decide)⟩

/-- C3: `get_backend` is idempotent.  If a call in a reachable state returns
`some b`, a second call (with no intervening overwrite or launch, and
whatever the probe would now say) returns the same `some b` from the
cached state, leaves the state unchanged, and does not invoke the probe. -/
theorem c3_get_backend_idempotent (s : Nat) (hs : s ≤ 4)
    (p1 p2 : Option Backend) (b : Backend)
    (h : (get_backend s p1).backend = some b) :
    (get_backend (get_backend s p1).state p2).backend = some b ∧
    (get_backend (get_backend s p1).state p2).state = (get_backend s p1).state ∧
    (get_backend (get_backend s p1).state p2).probed = false := by
  interval_cases s <;> rcases p1 with _ | b1 <;> try cases b1
  all_goals
    simp_all [get_backend, get_backend_one, get_backend_two,
      get_backend_three, get_backend_four]

/-- Witness for C3: a first call in the undecided state with a probe that
says software backend; the second call (probe now indeterminate) returns
the cached software backend, unchanged state, probe untouched. -/
theorem c3_get_backend_idempotent_witness :
    (get_backend (get_backend 0 (some .SoftwareBackend)).state none).backend
        = some .SoftwareBackend ∧
    (get_backend (get_backend 0 (some .SoftwareBackend)).state none).state
        = (get_backend 0 (some .SoftwareBackend)).state ∧
    (get_backend (get_backend 0 (some .SoftwareBackend)).state none).probed
        = false :=
  c3_get_backend_idempotent 0 (by decide) (some .SoftwareBackend) none
    .SoftwareBackend rfl

/-- C1: once a call to `run_app` has put `SelectionState` into a launched
value, any further call (that does not fail the earlier wrong-thread check)
returns the error whose text is "Application already launched", regardless
of its application name, configuration, probe environment and backend
error behaviour, enters neither backend run-loop, never invokes the probe,
and leaves the state unchanged. -/
theorem c1_second_run_already_launched
    (appName : String) (s : Nat) (mt : Option Bool) (probe : Option Backend)
    (config : BackendConfiguration) (swErr hwErr : Option String)
    (hL : is_launched s = true) (hmt : ¬ mt = some false) :
    (run_app appName s mt probe config swErr hwErr).result
        = .error .alreadyLaunched ∧
    RunError.message .alreadyLaunched = "Application already launched" ∧
    (run_app appName s mt probe config swErr hwErr).dispatched = none ∧
    (run_app appName s mt probe config swErr hwErr).probeInvoked = false ∧
    (run_app appName s mt probe config swErr hwErr).finalState = s := by
  unfold run_app
  rw [if_neg hmt, if_pos hL]
  exact ⟨rfl, rfl, rfl, rfl, rfl⟩

/-- Witness for C1 in the launched state 4 on the main thread. -/
theorem c1_second_run_already_launched_witness :
    (run_app "app" 4 (some true) none ⟨⟨0⟩, none, none⟩ none none).result
        = .error .alreadyLaunched ∧
    RunError.message .alreadyLaunched = "Application already launched" ∧
    (run_app "app" 4 (some true) none ⟨⟨0⟩, none, none⟩ none none).dispatched
        = none ∧
    (run_app "app" 4 (some true) none ⟨⟨0⟩, none, none⟩ none none).probeInvoked
        = false ∧
    (run_app "app" 4 (some true) none ⟨⟨0⟩, none, none⟩ none none).finalState
        = 4 :=
  c1_second_run_already_launched "app" 4 (some true) none ⟨⟨0⟩, none, none⟩
    none none (by decide) (by decide)

/-- C6: whenever `run_app` returns one of the two precondition errors
(wrong thread / already launched), it has mutated no state, invoked no
probe, entered no backend run-loop, built no options block, and handed out
no store-building factory. -/
theorem c6_precondition_failure_is_atomic
    (appName : String) (s : Nat) (mt : Option Bool) (probe : Option Backend)
    (config : BackendConfiguration) (swErr hwErr : Option String)
    (h : (run_app appName s mt probe config swErr hwErr).result
            = .error .wrongThread ∨
         (run_app appName s mt probe config swErr hwErr).result
            = .error .alreadyLaunched) :
    (run_app appName s mt probe config swErr hwErr).finalState = s ∧
    (run_app appName s mt probe config swErr hwErr).probeInvoked = false ∧
    (run_app appName s mt probe config swErr hwErr).dispatched = none ∧
    (run_app appName s mt probe config swErr hwErr).swCfgUsed = none ∧
    (run_app appName s mt probe config swErr hwErr).hwCfgUsed = none ∧
    (run_app appName s mt probe config swErr hwErr).storeConstructed = false := by
  by_cases h1 : mt = some false
  · unfold run_app
    rw [if_pos h1]
    exact ⟨rfl, rfl, rfl, rfl, rfl, rfl⟩
  · by_cases h2 : is_launched s = true
    · unfold run_app
      rw [if_neg h1, if_pos h2]
      exact ⟨rfl, rfl, rfl, rfl, rfl, rfl⟩
    · exfalso
      rcases h3 : (get_backend s probe).backend with _ | bb
      · rw [run_app_software appName s mt probe config swErr hwErr h1 h2
            (Or.inl h3)] at h
        cases swErr <;> simp at h
      · cases bb
        · rw [run_app_software appName s mt probe config swErr hwErr h1 h2
              (Or.inr h3)] at h
          cases swErr <;> simp at h
        · rw [run_app_eframe appName s mt probe config swErr hwErr h1 h2 h3] at h
          cases hwErr <;> simp at h

/-- Witness for C6: a wrong-thread call from launched-free state 2. -/
theorem c6_precondition_failure_is_atomic_witness :
    (run_app "app" 2 (some false) none ⟨⟨0⟩, none, none⟩ none none).finalState
        = 2 ∧
    (run_app "app" 2 (some false) none ⟨⟨0⟩, none, none⟩ none none).probeInvoked
        = false ∧
    (run_app "app" 2 (some false) none ⟨⟨0⟩, none, none⟩ none none).dispatched
        = none ∧
    (run_app "app" 2 (some false) none ⟨⟨0⟩, none, none⟩ none none).swCfgUsed
        = none ∧
    (run_app "app" 2 (some false) none ⟨⟨0⟩, none, none⟩ none none).hwCfgUsed
        = none ∧
    (run_app "app" 2 (some false) none ⟨⟨0⟩, none, none⟩ none none).storeConstructed
        = false :=
  c6_precondition_failure_is_atomic "app" 2 (some false) none ⟨⟨0⟩, none, none⟩
    none none (Or.inl rfl)

/-- C10: from a not-launched state, neither `overwrite_backend` nor
`get_backend` ever produces a launched state; only `run_app` does, and when
it dispatches to a backend it has stored exactly that backend's launched
value (3 or 4) before entering the run-loop, while a non-dispatching call
leaves the state unchanged. -/
theorem c10_only_run_app_launches
    (b : Backend) (s : Nat) (p : Option Backend) (appName : String)
    (mt : Option Bool) (config : BackendConfiguration) (se he : Option String)
    (h : is_launched s = false) :
    is_launched (overwrite_backend b s) = false ∧
    is_launched ((get_backend s p).state) = false ∧
    (∀ b2, (run_app appName s mt p config se he).dispatched = some b2 →
        (run_app appName s mt p config se he).finalState = launchedValue b2) ∧
    ((run_app appName s mt p config se he).dispatched = none →
        (run_app appName s mt p config se he).finalState = s) := by
  have hs : ¬ NUM_BACKENDS < s := by simpa [is_launched] using h
  have hs2 : s ≤ 2 := by
    simp only [NUM_BACKENDS] at hs
    omega
  have h2 : ¬ is_launched s = true := by simp [h]
  refine ⟨?_, ?_, ?_, ?_⟩
  · unfold overwrite_backend
    rw [if_neg hs]
    cases b <;> decide
  · interval_cases s <;> rcases p with _ | bp <;> try cases bp
    all_goals decide
  · intro b2 hd
    by_cases h1 : mt = some false
    · unfold run_app at hd
      rw [if_pos h1] at hd
      simp at hd
    · rcases h3 : (get_backend s p).backend with _ | bb
      · rw [run_app_software appName s mt p config se he h1 h2 (Or.inl h3)] at hd ⊢
        simp at hd
        subst hd
        rfl
      · cases bb
        · rw [run_app_software appName s mt p config se he h1 h2 (Or.inr h3)] at hd ⊢
          simp at hd
          subst hd
          rfl
        · rw [run_app_eframe appName s mt p config se he h1 h2 h3] at hd ⊢
          simp at hd
          subst hd
          rfl
  · intro hd
    by_cases h1 : mt = some false
    · unfold run_app
      rw [if_pos h1]
    · exfalso
      rcases h3 : (get_backend s p).backend with _ | bb
      · rw [run_app_software appName s mt p config se he h1 h2 (Or.inl h3)] at hd
        simp at hd
      · cases bb
        · rw [run_app_software appName s mt p config se he h1 h2 (Or.inr h3)] at hd
          simp at hd
        · rw [run_app_eframe appName s mt p config se he h1 h2 h3] at hd
          simp at hd

/-- Witness for C10 from the undecided state 0 with an indeterminate
probe: the software run-loop is entered with state 3 stored. -/
theorem c10_only_run_app_launches_witness :
    is_launched (overwrite_backend .Eframe 0) = false ∧
    is_launched ((get_backend 0 none).state) = false ∧
    (∀ b2, (run_app "app" 0 none none ⟨⟨0⟩, none, none⟩ none none).dispatched
            = some b2 →
        (run_app "app" 0 none none ⟨⟨0⟩, none, none⟩ none none).finalState
            = launchedValue b2) ∧
    ((run_app "app" 0 none none ⟨⟨0⟩, none, none⟩ none none).dispatched = none →
        (run_app "app" 0 none none ⟨⟨0⟩, none, none⟩ none none).finalState = 0) :=
  c10_only_run_app_launches .Eframe 0 none "app" none ⟨⟨0⟩, none, none⟩
    none none (by decide)

/-- Counterexample to C2 as stated: both stated preconditions hold (main
thread confirmed, state 1 is not launched) and the probe is fixed to
return eframe (the hardware backend), yet `run_app` dispatches to the
software run-loop and not the hardware one, because state 1 already caches
a decided software backend. -/
theorem c2_counterexample_decided_state_overrides_probe :
    is_launched 1 = false ∧
    (run_app "app" 1 (some true) (some .Eframe)
        ⟨⟨0⟩, none, none⟩ none none).dispatched = some .SoftwareBackend ∧
    (run_app "app" 1 (some true) (some .Eframe)
        ⟨⟨0⟩, none, none⟩ none none).dispatched ≠ some .Eframe := by
  refine ⟨rfl, rfl, ?_⟩
  decide

/-- C2 (amended): when additionally `SelectionState` is still undecided
(value 0), the probe's answer controls the dispatch: eframe dispatches the
hardware run-loop and never the software one, while an indeterminate or
software answer dispatches the software run-loop as the safe default. -/
theorem c2_dispatch_follows_probe_when_undecided
    (appName : String) (mt : Option Bool) (probe : Option Backend)
    (config : BackendConfiguration) (swErr hwErr : Option String)
    (hmt : ¬ mt = some false) :
    (probe = some .Eframe →
      (run_app appName 0 mt probe config swErr hwErr).dispatched
          = some .Eframe ∧
      (run_app appName 0 mt probe config swErr hwErr).dispatched
          ≠ some .SoftwareBackend) ∧
    ((probe = none ∨ probe = some .SoftwareBackend) →
      (run_app appName 0 mt probe config swErr hwErr).dispatched
          = some .SoftwareBackend) := by
  have h2 : ¬ is_launched 0 = true := by decide
  constructor
  · rintro rfl
    rw [run_app_eframe appName 0 mt (some .Eframe) config swErr hwErr hmt h2 rfl]
    exact ⟨rfl, by simp⟩
  · rintro (rfl | rfl)
    · rw [run_app_software appName 0 mt none config swErr hwErr hmt h2
        (Or.inl rfl)]
    · rw [run_app_software appName 0 mt (some .SoftwareBackend) config swErr
        hwErr hmt h2 (Or.inr rfl)]

/-- Witness for the amended C2: from the undecided state, an eframe probe
answer dispatches eframe, an indeterminate probe answer dispatches the
software backend. -/
theorem c2_dispatch_follows_probe_when_undecided_witness :
    ((run_app "app" 0 (some true) (some .Eframe)
        ⟨⟨0⟩, none, none⟩ none none).dispatched = some .Eframe ∧
     (run_app "app" 0 (some true) (some .Eframe)
        ⟨⟨0⟩, none, none⟩ none none).dispatched ≠ some .SoftwareBackend) ∧
    (run_app "app" 0 (some true) none
        ⟨⟨0⟩, none, none⟩ none none).dispatched = some .SoftwareBackend :=
  ⟨(c2_dispatch_follows_probe_when_undecided "app" (some true) (some .Eframe)
      ⟨⟨0⟩, none, none⟩ none none (by decide)).1 rfl,
   (c2_dispatch_follows_probe_when_undecided "app" (some true) none
      ⟨⟨0⟩, none, none⟩ none none (by decide)).2 (Or.inl rfl)⟩

/-- C7: on Linux, the probe recommends eframe (hardware) when `DISPLAY` is
absent, recommends eframe when the value starts with `:` (a local display
number, `Char.ofNat 58` is the colon) or contains `/unix:` (a local-socket
address), recommends the software backend for every other value (a
network-forwarded display), and is never indeterminate. -/
theorem c7_determine_backend_linux_classification (display : Option (List Char)) :
    (display = none → determine_backend_linux display = some .Eframe) ∧
    (∀ d, display = some d →
      ((charsStart [Char.ofNat 58] d = true ∨
          charsContain "/unix:".toList d = true) →
        determine_backend_linux display = some .Eframe) ∧
      ((charsStart [Char.ofNat 58] d = false ∧
          charsContain "/unix:".toList d = false) →
        determine_backend_linux display = some .SoftwareBackend)) ∧
    determine_backend_linux display ≠ none := by
  refine ⟨?_, ?_, ?_⟩
  · rintro rfl
    rfl
  · rintro d rfl
    constructor
    · intro hc
      have hn : ¬ (¬ charsStart [Char.ofNat 58] d = true ∧
          ¬ charsContain "/unix:".toList d = true) := by
        rintro ⟨ha, hb⟩
        rcases hc with hc | hc
        · exact ha hc
        · exact hb hc
      simp only [determine_backend_linux]
      rw [if_neg hn]
    · rintro ⟨ha, hb⟩
      simp only [determine_backend_linux]
      rw [if_pos ⟨by rw [Bool.not_eq_true]; exact ha,
        by rw [Bool.not_eq_true]; exact hb⟩]
  · rcases display with _ | d
    · simp [determine_backend_linux]
    · simp only [determine_backend_linux]
      split <;> simp

/-- Witness for C7: `DISPLAY=":0"` (local) gets eframe,
`DISPLAY="remotehost:0"` (forwarded) gets the software backend. -/
theorem c7_determine_backend_linux_classification_witness :
    determine_backend_linux (some ":0".toList) = some .Eframe ∧
    determine_backend_linux (some "remotehost:0".toList)
        = some .SoftwareBackend :=
  ⟨((c7_determine_backend_linux_classification (some ":0".toList)).2.1
      ":0".toList rfl).1 (Or.inl (by decide)),
   ((c7_determine_backend_linux_classification
      (some "remotehost:0".toList)).2.1 "remotehost:0".toList rfl).2
      ⟨by decide, by decide⟩⟩

/-- C8: whatever options block `run_app` hands to the dispatched run-loop,
its viewport geometry is the configuration's shared viewport, and its
remaining contents are the caller-supplied backend-specific block when one
was given and the backend's default block otherwise. -/
theorem c8_configuration_merge
    (appName : String) (s : Nat) (mt : Option Bool) (probe : Option Backend)
    (config : BackendConfiguration) (swErr hwErr : Option String) :
    (∀ c, (run_app appName s mt probe config swErr hwErr).swCfgUsed = some c →
        c.viewport_builder = config.viewport ∧
        (∀ blk, config.software_backend_options = some blk → c.rest = blk.rest) ∧
        (config.software_backend_options = none →
          c.rest = SoftwareBackendAppConfiguration.defaultOptions.rest)) ∧
    (∀ c, (run_app appName s mt probe config swErr hwErr).hwCfgUsed = some c →
        c.viewport = config.viewport ∧
        (∀ blk, config.eframe_options = some blk → c.rest = blk.rest) ∧
        (config.eframe_options = none →
          c.rest = NativeOptions.defaultOptions.rest)) := by
  by_cases h1 : mt = some false
  · unfold run_app
    rw [if_pos h1]
    exact ⟨fun c hc => by simp at hc, fun c hc => by simp at hc⟩
  · by_cases h2 : is_launched s = true
    · unfold run_app
      rw [if_neg h1, if_pos h2]
      exact ⟨fun c hc => by simp at hc, fun c hc => by simp at hc⟩
    · constructor
      · intro c hc
        rcases h3 : (get_backend s probe).backend with _ | bb
        · rw [run_app_software appName s mt probe config swErr hwErr h1 h2
              (Or.inl h3)] at hc
          simp only [Option.some.injEq] at hc
          subst hc
          refine ⟨rfl, ?_, ?_⟩
          · intro blk hblk
            simp [hblk]
          · intro hnone
            simp [hnone]
        · cases bb
          · rw [run_app_software appName s mt probe config swErr hwErr h1 h2
                (Or.inr h3)] at hc
            simp only [Option.some.injEq] at hc
            subst hc
            refine ⟨rfl, ?_, ?_⟩
            · intro blk hblk
              simp [hblk]
            · intro hnone
              simp [hnone]
          · rw [run_app_eframe appName s mt probe config swErr hwErr h1 h2
                h3] at hc
            simp at hc
      · intro c hc
        rcases h3 : (get_backend s probe).backend with _ | bb
        · rw [run_app_software appName s mt probe config swErr hwErr h1 h2
              (Or.inl h3)] at hc
          simp at hc
        · cases bb
          · rw [run_app_software appName s mt probe config swErr hwErr h1 h2
                (Or.inr h3)] at hc
            simp at hc
          · rw [run_app_eframe appName s mt probe config swErr hwErr h1 h2
                h3] at hc
            simp only [Option.some.injEq] at hc
            subst hc
            refine ⟨rfl, ?_, ?_⟩
            · intro blk hblk
              simp [hblk]
            · intro hnone
              simp [hnone]

/-- Witness for C8: a caller-supplied software block with payload 5 and its
own geometry 7 is used, but with the shared geometry 9 overriding. -/
theorem c8_configuration_merge_witness :
    (⟨⟨9⟩, 5⟩ : SoftwareBackendAppConfiguration).viewport_builder
        = (⟨⟨9⟩, none, some ⟨⟨7⟩, 5⟩⟩ : BackendConfiguration).viewport ∧
    (∀ blk, (⟨⟨9⟩, none, some ⟨⟨7⟩, 5⟩⟩ : BackendConfiguration).software_backend_options
          = some blk →
        (⟨⟨9⟩, 5⟩ : SoftwareBackendAppConfiguration).rest = blk.rest) ∧
    ((⟨⟨9⟩, none, some ⟨⟨7⟩, 5⟩⟩ : BackendConfiguration).software_backend_options
          = none →
        (⟨⟨9⟩, 5⟩ : SoftwareBackendAppConfiguration).rest
            = SoftwareBackendAppConfiguration.defaultOptions.rest) :=
  (c8_configuration_merge "app" 0 (some true) none ⟨⟨9⟩, none, some ⟨⟨7⟩, 5⟩⟩
      none none).1 ⟨⟨9⟩, 5⟩ rfl

/-- Counterexample to C9 as stated: with the storage directory available
and the persisted file present but malformed, `KVStroage::new` does log a
warning but returns `None` — no store at all — rather than a store holding
an empty mapping. -/
theorem c9_counterexample_malformed_yields_no_store :
    kvstroage_new true FileState.malformed = (none, true) ∧
    (kvstroage_new true FileState.malformed).1 ≠ some ⟨[], false⟩ := by
  exact ⟨rfl, by decide⟩

/-- C9 (amended): a missing persisted file yields a store with an empty
mapping and no warning; an unreadable or malformed file logs a warning and
makes construction return no store at all (the launcher then simply runs
with no storage, so construction is still never fatal); a parseable file
yields a store with its mapping, marked clean. -/
theorem c9_storage_construction (kv : List (String × String)) :
    kvstroage_new true FileState.missing = (some ⟨[], false⟩, false) ∧
    kvstroage_new true FileState.openFail = (none, true) ∧
    kvstroage_new true FileState.malformed = (none, true) ∧
    kvstroage_new true (FileState.parsed kv) = (some ⟨kv, false⟩, false) :=
  ⟨rfl, rfl, rfl, rfl⟩

end EguiBackendSelector
